import Mathlib

/-!
Verification of the declarative thumbnail-layout logic of the
`SingleThumbnailEditor` component (a fabric.js based 1280x720 thumbnail
editor).  The TypeScript source is shallowly embedded: JS numbers that the
layout math manipulates become `ℚ`, optional descriptor fields become
`Option`, the JS `||`-defaulting idiom and the `??` nullish coalescing
operator are modelled explicitly, and the fabric canvas object list is a
Lean `List` whose index 0 is the back-most (lowest z-index) position.
-/

/-- Canvas width in pixels (`THUMBNAIL_WIDTH`). -/
def THUMBNAIL_WIDTH : ℚ := 1280

/-- Canvas height in pixels (`THUMBNAIL_HEIGHT`). -/
def THUMBNAIL_HEIGHT : ℚ := 720

/-- JS `x || d` for an optional number: `undefined`, and the falsy value
`0`, both fall back to the default. -/
def jsOrQ (x : Option ℚ) (d : ℚ) : ℚ :=
  match x with
  | none => d
  | some v => if v = 0 then d else v

/-- JS `x || d` for an optional string: `undefined`, and the falsy empty
string, both fall back to the default. -/
def jsOrS (x : Option String) (d : String) : String :=
  match x with
  | none => d
  | some v => if v = "" then d else v

/-- JS `x ?? d` (nullish coalescing): only `undefined` falls back. -/
def jsCoalesceQ (x : Option ℚ) (d : ℚ) : ℚ := x.getD d

/-- JS `(x || 1)` applied to a number that is already present: guards a
division by a zero width/height. -/
def jsNZ (x : ℚ) : ℚ := if x = 0 then 1 else x

/-- JS `s.includes(pat)` (substring test), as contiguous-sublist
containment on the character lists. -/
def jsIncludes (s pat : String) : Bool := decide (pat.toList <:+: s.toList)

/-- One entry of the `texts` array of an `InitialContent` descriptor. -/
structure TextConfig where
  content : String
  fontSize : Option ℚ := none
  fontFamily : Option String := none
  color : Option String := none
  top : Option ℚ := none
  left : Option ℚ := none
  angle : Option ℚ := none
  textAlign : Option String := none
  originX : Option String := none
  fontWeight : Option String := none
  stroke : Option String := none
  strokeWidth : Option ℚ := none
  width : Option ℚ := none
deriving DecidableEq

/-- The `InitialContent` content descriptor.  A JS `undefined` array is
observationally the empty list here (the code only iterates it), and the
boolean flags default to `false` exactly as an absent JS field is falsy. -/
structure InitialContent where
  texts : List TextConfig := []
  logoUrl : Option String := none
  logoUrls : List String := []
  logoBorder : Bool := false
  backgroundColor : Option String := none
  logoSizeMultiplier : Option ℚ := none
  logoTop : Option ℚ := none
  youtubeLogoUrl : Option String := none
  showArrow : Bool := false
  youtubeLogoSizeMultiplier : Option ℚ := none
  youtubeLogoTop : Option ℚ := none
  backgroundImageUrl : Option String := none
  showNineBall : Bool := false
  nineBallSize : Option ℚ := none
deriving DecidableEq

/-- The attributes of a fabric `Textbox` created by the initialization
pass (the fields the descriptor can influence). -/
structure TextboxObj where
  content : String
  left : ℚ
  top : ℚ
  fontSize : ℚ
  fontFamily : String
  fill : String
  fontWeight : String
  stroke : String
  strokeWidth : ℚ
  textAlign : String
  originX : String
  originY : String
  width : ℚ
  angle : ℚ
deriving DecidableEq

/-- The `new Textbox(textConfig.content, {...})` call of the
initialization pass (source lines 151-167): `??` for `left` and
`strokeWidth`, `||` for every other defaulted attribute. -/
def mkInitialTextbox (tc : TextConfig) : TextboxObj :=
  { content := tc.content
    left := jsCoalesceQ tc.left (THUMBNAIL_WIDTH / 2 - 20)
    top := jsOrQ tc.top (THUMBNAIL_HEIGHT / 2)
    fontSize := jsOrQ tc.fontSize 60
    fontFamily := jsOrS tc.fontFamily "Arial"
    fill := jsOrS tc.color "#FFFFFF"
    fontWeight := jsOrS tc.fontWeight "bold"
    stroke := jsOrS tc.stroke "#000000"
    strokeWidth := jsCoalesceQ tc.strokeWidth 3
    textAlign := jsOrS tc.textAlign "center"
    originX := jsOrS tc.originX "center"
    originY := "center"
    width := jsOrQ tc.width (THUMBNAIL_WIDTH * (8 / 10))
    angle := jsOrQ tc.angle 0 }

/-- The `initialContent.texts.forEach` loop: one textbox per entry, in
order. -/
def addInitialTexts (texts : List TextConfig) : List TextboxObj :=
  texts.map mkInitialTextbox

/-- C1's reading of the attribute contract: a supplied attribute is
carried verbatim, an unsupplied one gets the documented default. -/
def claimAttrsHold (tc : TextConfig) (o : TextboxObj) : Prop :=
  o.content = tc.content ∧
  o.top = tc.top.getD 360 ∧
  o.fontSize = tc.fontSize.getD 60 ∧
  o.fontFamily = tc.fontFamily.getD "Arial" ∧
  o.fill = tc.color.getD "#FFFFFF" ∧
  o.fontWeight = tc.fontWeight.getD "bold" ∧
  o.stroke = tc.stroke.getD "#000000" ∧
  o.strokeWidth = tc.strokeWidth.getD 3 ∧
  o.textAlign = tc.textAlign.getD "center" ∧
  o.originX = tc.originX.getD "center" ∧
  o.originY = "center" ∧
  o.width = tc.width.getD 1024 ∧
  o.angle = tc.angle.getD 0

instance (tc : TextConfig) (o : TextboxObj) : Decidable (claimAttrsHold tc o) := by
  unfold claimAttrsHold
  infer_instance

/-- The amended attribute contract (spec side): the code defaults with JS
`||`, so a supplied `0` (for `top`, `fontSize`, `width`, `angle`) or a
supplied empty string (for the string attributes) also falls back to the
documented default; only `left` and `strokeWidth` use `??` and honor every
supplied value. -/
def specFalsyDefaultQ : Option ℚ → ℚ → ℚ
  | some v, d => if v = 0 then d else v
  | none, d => d

/-- Spec-side `||` defaulting for strings, see `specFalsyDefaultQ`. -/
def specFalsyDefaultS : Option String → String → String
  | some v, d => if v = "" then d else v
  | none, d => d

/-- The textbox that the amended C1 predicts for one entry. -/
def amendedInitialTextbox (tc : TextConfig) : TextboxObj :=
  { content := tc.content
    left := match tc.left with | some v => v | none => 620
    top := specFalsyDefaultQ tc.top 360
    fontSize := specFalsyDefaultQ tc.fontSize 60
    fontFamily := specFalsyDefaultS tc.fontFamily "Arial"
    fill := specFalsyDefaultS tc.color "#FFFFFF"
    fontWeight := specFalsyDefaultS tc.fontWeight "bold"
    stroke := specFalsyDefaultS tc.stroke "#000000"
    strokeWidth := match tc.strokeWidth with | some v => v | none => 3
    textAlign := specFalsyDefaultS tc.textAlign "center"
    originX := specFalsyDefaultS tc.originX "center"
    originY := "center"
    width := specFalsyDefaultQ tc.width 1024
    angle := specFalsyDefaultQ tc.angle 0 }

lemma jsOrQ_eq_specFalsy (x : Option ℚ) (d : ℚ) : jsOrQ x d = specFalsyDefaultQ x d := by
  cases x <;> rfl

lemma jsOrS_eq_specFalsy (x : Option String) (d : String) :
    jsOrS x d = specFalsyDefaultS x d := by
  cases x <;> rfl

lemma mkInitialTextbox_eq_amended (tc : TextConfig) :
    mkInitialTextbox tc = amendedInitialTextbox tc := by
  unfold mkInitialTextbox amendedInitialTextbox jsCoalesceQ
  simp only [jsOrQ_eq_specFalsy, jsOrS_eq_specFalsy, THUMBNAIL_WIDTH, THUMBNAIL_HEIGHT]
  cases tc.left <;> cases tc.strokeWidth <;> norm_num [Option.getD]

/-- C1 (amended): the initialization pass creates exactly one textbox per
text entry, in order, and each textbox carries the entry's supplied
attributes except that the `||`-defaulted attributes treat a supplied `0`
or empty string as unsupplied; unsupplied attributes get the documented
defaults (fontSize 60, fontFamily Arial, fill #FFFFFF, fontWeight bold,
stroke #000000, strokeWidth 3, textAlign center, originX center, originY
center, width 1024, angle 0, top 360). -/
theorem C1_theorem (texts : List TextConfig) :
    (addInitialTexts texts).length = texts.length ∧
    addInitialTexts texts = texts.map amendedInitialTextbox := by
  constructor
  · simp [addInitialTexts]
  · unfold addInitialTexts
    exact List.map_congr_left fun tc _ => mkInitialTextbox_eq_amended tc

/-- C1 counterexample: a text entry that supplies `top: 0` does not carry
its supplied attribute; the code's `||` default replaces it with 360. -/
theorem C1_counterexample :
    addInitialTexts [{ content := "TITLE", top := some 0 }] =
      [mkInitialTextbox { content := "TITLE", top := some 0 }] ∧
    ¬ claimAttrsHold { content := "TITLE", top := some 0 }
        (mkInitialTextbox { content := "TITLE", top := some 0 }) := by
  refine ⟨rfl, ?_⟩
  intro h
  have h2 := h.2.1
  simp only [mkInitialTextbox, jsOrQ, THUMBNAIL_HEIGHT, Option.getD] at h2
  norm_num at h2

/-! ## The fabric object list

Fabric keeps canvas objects in an ordered list; index 0 is the back-most
(lowest z-index) object.  `add` appends, `sendObjectToBack` moves an
object to index 0, `bringObjectToFront` moves it to the end. -/

/-- A scene object, at the granularity the z-order and positioning claims
need.  `ty` is the fabric type tag (`"image"`, `"textbox"`, `"circle"`,
`"text"`, `"triangle"`), `tag` identifies the object (its URL or role). -/
structure FabObj where
  ty : String
  tag : String
  left : ℚ := 0
  top : ℚ := 0
deriving DecidableEq

/-- `canvas.add(o)`: append at the front-most position. -/
def addObj (o : FabObj) (l : List FabObj) : List FabObj := l ++ [o]

/-- `canvas.sendObjectToBack(o)`: move `o` to index 0. -/
def sendToBack (o : FabObj) (l : List FabObj) : List FabObj :=
  if o ∈ l then o :: l.erase o else l

/-- `canvas.bringObjectToFront(o)`: move `o` to the end. -/
def bringToFront (o : FabObj) (l : List FabObj) : List FabObj :=
  if o ∈ l then l.erase o ++ [o] else l

/-- The `obj.type === "textbox" || obj.type === "i-text"` test of
`createNineBall`. -/
def isTextType (o : FabObj) : Bool := o.ty == "textbox" || o.ty == "i-text"

/-! ## Interactive canvas state: delete and clear -/

/-- The mutable canvas state the interactive edit operations touch. -/
structure EditorCanvas where
  objs : List FabObj
  activeObject : Option FabObj := none
  backgroundColor : String := "#FFFFFF"
deriving DecidableEq

/-- `canvas.remove(activeObject)` guarded by `getActiveObject()`: with no
selection nothing happens. -/
def removeActive (c : EditorCanvas) : EditorCanvas :=
  match c.activeObject with
  | some o => { c with objs := c.objs.erase o, activeObject := none }
  | none => c

/-- The `handleKeyDown` listener (source lines 94-107): Delete/Backspace
deletes the selected object unless Ctrl or Meta is held; Shift and Alt
are not inspected. -/
structure KeyEvent where
  key : String
  ctrlKey : Bool := false
  metaKey : Bool := false
  shiftKey : Bool := false
  altKey : Bool := false
deriving DecidableEq

/-- Embedding of `handleKeyDown`. -/
def handleKeyDown (e : KeyEvent) (c : EditorCanvas) : EditorCanvas :=
  if (e.key == "Delete" || e.key == "Backspace") && !e.ctrlKey && !e.metaKey then
    removeActive c
  else c

/-- Embedding of the `handleDelete` button handler (source lines 597-604). -/
def handleDelete (c : EditorCanvas) : EditorCanvas := removeActive c

/-- Embedding of `handleClear` (source lines 636-642): `canvas.clear()`
then `backgroundColor = "#FFFFFF"`, with no reference to the descriptor. -/
def handleClear (_c : EditorCanvas) : EditorCanvas :=
  { objs := [], activeObject := none, backgroundColor := "#FFFFFF" }

/-- Background color the canvas is created with (source line 81):
`initialContent?.backgroundColor || "#FFFFFF"`. -/
def initialBackgroundColor (d : InitialContent) : String :=
  jsOrS d.backgroundColor "#FFFFFF"

/-- C6 (amended): deleting with no selected object is a no-op for both
the Delete/Backspace key handler and the delete button, and a keydown
with Ctrl or Meta held never removes anything; Shift and Alt are not
checked by the code and do not prevent deletion. -/
theorem C6_theorem (e : KeyEvent) (c : EditorCanvas) :
    (c.activeObject = none → handleKeyDown e c = c ∧ handleDelete c = c) ∧
    (e.ctrlKey = true ∨ e.metaKey = true → handleKeyDown e c = c) := by
  constructor
  · intro hnone
    have hrm : removeActive c = c := by
      unfold removeActive
      rw [hnone]
    unfold handleKeyDown handleDelete
    rw [hrm]
    simp
  · intro hmod
    unfold handleKeyDown
    rcases hmod with h | h <;> rw [h] <;> simp

/-- C6 witness: the no-op facts at a concrete unselected canvas, and the
Ctrl-guard at a concrete selected canvas. -/
theorem C6_witness :
    (handleKeyDown { key := "Delete" } { objs := [⟨"textbox", "t", 0, 0⟩] } =
      { objs := [⟨"textbox", "t", 0, 0⟩] } ∧
     handleDelete { objs := [⟨"textbox", "t", 0, 0⟩] } =
      { objs := [⟨"textbox", "t", 0, 0⟩] }) ∧
    handleKeyDown { key := "Delete", ctrlKey := true }
        { objs := [⟨"textbox", "t", 0, 0⟩], activeObject := some ⟨"textbox", "t", 0, 0⟩ } =
      { objs := [⟨"textbox", "t", 0, 0⟩], activeObject := some ⟨"textbox", "t", 0, 0⟩ } :=
  ⟨(C6_theorem { key := "Delete" } { objs := [⟨"textbox", "t", 0, 0⟩] }).1 rfl,
   (C6_theorem { key := "Delete", ctrlKey := true }
     { objs := [⟨"textbox", "t", 0, 0⟩], activeObject := some ⟨"textbox", "t", 0, 0⟩ }).2
     (Or.inl rfl)⟩

/-- C6 counterexample: a Delete keydown with Shift held (a modifier key)
still removes the selected object, contrary to the claim that any held
modifier prevents deletion. -/
theorem C6_counterexample :
    (handleKeyDown { key := "Delete", shiftKey := true }
        { objs := [⟨"textbox", "t", 0, 0⟩], activeObject := some ⟨"textbox", "t", 0, 0⟩ }).objs ≠
      [⟨"textbox", "t", 0, 0⟩] := by
  decide

/-- C10: the clear operation empties the object list and sets the
background color to #FFFFFF unconditionally; in particular a descriptor
whose configured background color differs from #FFFFFF is not restored. -/
theorem C10_theorem (c : EditorCanvas) (d : InitialContent) :
    (handleClear c).objs = [] ∧
    (handleClear c).backgroundColor = "#FFFFFF" ∧
    (initialBackgroundColor d ≠ "#FFFFFF" →
      (handleClear c).backgroundColor ≠ initialBackgroundColor d) := by
  refine ⟨rfl, rfl, ?_⟩
  intro hne
  unfold handleClear
  exact fun h => hne h.symm

/-- C10 witness: clearing a canvas whose descriptor configured the blue
background `#0066CC` really leaves `#FFFFFF`, not the descriptor color. -/
theorem C10_witness :
    (handleClear { objs := [⟨"textbox", "t", 0, 0⟩], backgroundColor := "#0066CC" }).objs = [] ∧
    (handleClear { objs := [⟨"textbox", "t", 0, 0⟩], backgroundColor := "#0066CC" }).backgroundColor
      = "#FFFFFF" ∧
    (handleClear { objs := [⟨"textbox", "t", 0, 0⟩], backgroundColor := "#0066CC" }).backgroundColor
      ≠ initialBackgroundColor { backgroundColor := some "#0066CC" } :=
  ⟨(C10_theorem _ { backgroundColor := some "#0066CC" }).1,
   (C10_theorem _ { backgroundColor := some "#0066CC" }).2.1,
   (C10_theorem { objs := [⟨"textbox", "t", 0, 0⟩], backgroundColor := "#0066CC" }
      { backgroundColor := some "#0066CC" }).2.2 (by decide)⟩

/-! ## Export (C8) -/

/-- The canvas element's size state: the internal coordinate space and
the on-screen CSS size, which `handleResize` scales independently. -/
structure CanvasDims where
  internalW : ℚ
  internalH : ℚ
  cssW : ℚ
  cssH : ℚ
deriving DecidableEq

/-- The canvas as created: full resolution both internally and on screen. -/
def initialCanvasDims : CanvasDims := ⟨1280, 720, 1280, 720⟩

/-- `handleResize` (source lines 462-486): `setDimensions` with
`cssOnly: true` plus a CSS width/height assignment; the internal
coordinate space is untouched. -/
def handleResize (containerW : ℚ) (c : CanvasDims) : CanvasDims :=
  let maxW := containerW - 32
  let scale := min (maxW / THUMBNAIL_WIDTH) 1
  { c with cssW := THUMBNAIL_WIDTH * scale, cssH := THUMBNAIL_HEIGHT * scale }

/-- What `canvas.toDataURL` renders: the internal coordinate space times
the requested multiplier, in the requested format/quality. -/
structure ExportedImage where
  format : String
  quality : ℚ
  multiplier : ℚ
  pixelW : ℚ
  pixelH : ℚ
deriving DecidableEq

/-- Embedding of fabric's `toDataURL` as observed by the export claims. -/
def toDataURL (c : CanvasDims) (format : String) (quality multiplier : ℚ) : ExportedImage :=
  ⟨format, quality, multiplier, c.internalW * multiplier, c.internalH * multiplier⟩

/-- `handleExportPNG` (source lines 607-615): PNG at multiplier 1, then a
download named after the tab's canvas identifier. -/
def handleExportPNG (c : CanvasDims) (canvasId : String) : ExportedImage × String :=
  (toDataURL c "png" 1 1, "thumbnail-" ++ canvasId ++ ".png")

/-- `handleExportJPEG` (source lines 618-626): JPEG at quality 0.95 and
multiplier 1. -/
def handleExportJPEG (c : CanvasDims) (canvasId : String) : ExportedImage × String :=
  (toDataURL c "jpeg" (19 / 20) 1, "thumbnail-" ++ canvasId ++ ".jpg")

lemma handleResize_internal (w : ℚ) (c : CanvasDims) :
    (handleResize w c).internalW = c.internalW ∧ (handleResize w c).internalH = c.internalH := by
  unfold handleResize
  exact ⟨rfl, rfl⟩

lemma resized_internal (resizes : List ℚ) :
    (resizes.foldl (fun acc w => handleResize w acc) initialCanvasDims).internalW = 1280 ∧
    (resizes.foldl (fun acc w => handleResize w acc) initialCanvasDims).internalH = 720 := by
  suffices h : ∀ (c : CanvasDims),
      (resizes.foldl (fun acc w => handleResize w acc) c).internalW = c.internalW ∧
      (resizes.foldl (fun acc w => handleResize w acc) c).internalH = c.internalH by
    simpa [initialCanvasDims] using h initialCanvasDims
  induction resizes with
  | nil => exact fun c => ⟨rfl, rfl⟩
  | cons w rest ih =>
    intro c
    simp only [List.foldl_cons]
    rw [(ih (handleResize w c)).1, (ih (handleResize w c)).2]
    exact handleResize_internal w c

/-- C8: after any sequence of responsive CSS resizes, exporting renders
from the full 1280x720 coordinate space with multiplier 1 (PNG, and JPEG
at quality 0.95), and both download filenames contain the tab's canvas
identifier. -/
theorem C8_theorem (resizes : List ℚ) (cid : String) :
    ((handleExportPNG (resizes.foldl (fun acc w => handleResize w acc) initialCanvasDims)
        cid).1.pixelW = 1280 ∧
     (handleExportPNG (resizes.foldl (fun acc w => handleResize w acc) initialCanvasDims)
        cid).1.pixelH = 720 ∧
     (handleExportPNG (resizes.foldl (fun acc w => handleResize w acc) initialCanvasDims)
        cid).1.format = "png" ∧
     (handleExportPNG (resizes.foldl (fun acc w => handleResize w acc) initialCanvasDims)
        cid).1.multiplier = 1) ∧
    ((handleExportJPEG (resizes.foldl (fun acc w => handleResize w acc) initialCanvasDims)
        cid).1.pixelW = 1280 ∧
     (handleExportJPEG (resizes.foldl (fun acc w => handleResize w acc) initialCanvasDims)
        cid).1.pixelH = 720 ∧
     (handleExportJPEG (resizes.foldl (fun acc w => handleResize w acc) initialCanvasDims)
        cid).1.format = "jpeg" ∧
     (handleExportJPEG (resizes.foldl (fun acc w => handleResize w acc) initialCanvasDims)
        cid).1.quality = 19 / 20 ∧
     (handleExportJPEG (resizes.foldl (fun acc w => handleResize w acc) initialCanvasDims)
        cid).1.multiplier = 1) ∧
    (∃ pre post,
      (handleExportPNG (resizes.foldl (fun acc w => handleResize w acc) initialCanvasDims)
        cid).2 = pre ++ cid ++ post) ∧
    (∃ pre post,
      (handleExportJPEG (resizes.foldl (fun acc w => handleResize w acc) initialCanvasDims)
        cid).2 = pre ++ cid ++ post) := by
  obtain ⟨hw, hh⟩ := resized_internal resizes
  refine ⟨⟨?_, ?_, rfl, rfl⟩, ⟨?_, ?_, rfl, rfl, rfl⟩, ⟨"thumbnail-", ".png", rfl⟩,
    ⟨"thumbnail-", ".jpg", rfl⟩⟩ <;>
    simp [handleExportPNG, handleExportJPEG, toDataURL, hw, hh]

/-! ## Mount lifecycle and the one-shot initialization guard (C5)

The effect (source lines 77-500) creates a fresh fabric canvas, stores it
in `fabricCanvasRef.current`, and, when `initialContent` is present and
`initializedRef.current` is false, sets the guard and schedules the
populate pass with `setTimeout(..., 200)`.  The cleanup disposes the
canvas and resets the guard, but it neither clears the pending timeout
nor nulls `fabricCanvasRef.current`; a firing timeout only checks
`fabricCanvasRef.current` for null before populating whatever canvas the
ref currently holds. -/

/-- Editor lifecycle state.  `popCount` counts how many times the canvas
currently held by `fabricCanvasRef.current` has received the descriptor's
initial content; `pendingInits` counts scheduled populate timeouts that
have not fired. -/
structure EditorLife where
  mounted : Bool
  initGuard : Bool
  canvasCreated : Bool
  popCount : Nat
  pendingInits : Nat
deriving DecidableEq

/-- Lifecycle events: an effect run (mount or canvasId change), its
cleanup, and a scheduled populate timeout firing. -/
inductive LifeEvent where
  | effectRun
  | cleanup
  | timeoutFire
deriving DecidableEq

/-- One lifecycle step, for a tab whose descriptor is present
(`hasContent`). -/
def lifeStep (hasContent : Bool) (st : EditorLife) : LifeEvent → EditorLife
  | .effectRun =>
    let st1 := { st with mounted := true, canvasCreated := true, popCount := 0 }
    if hasContent && !st.initGuard then
      { st1 with initGuard := true, pendingInits := st1.pendingInits + 1 }
    else st1
  | .cleanup => { st with mounted := false, initGuard := false }
  | .timeoutFire =>
    if st.canvasCreated then
      { st with pendingInits := st.pendingInits - 1, popCount := st.popCount + 1 }
    else
      { st with pendingInits := st.pendingInits - 1 }

/-- Whether an event can occur in a state: React alternates effect runs
and cleanups, and a timeout only fires if one is pending. -/
def lifeEventOk (st : EditorLife) : LifeEvent → Bool
  | .effectRun => !st.mounted
  | .cleanup => st.mounted
  | .timeoutFire => decide (0 < st.pendingInits)

/-- Run a lifecycle trace, rejecting invalid traces. -/
def runLife (hasContent : Bool) : EditorLife → List LifeEvent → Option EditorLife
  | st, [] => some st
  | st, e :: rest =>
    if lifeEventOk st e then runLife hasContent (lifeStep hasContent st e) rest else none

/-- The state before the component ever mounted. -/
def editorLifeStart : EditorLife :=
  { mounted := false, initGuard := false, canvasCreated := false, popCount := 0,
    pendingInits := 0 }

/-- C5 is violated: remounting before the first 200 ms populate timeout
fires leaves two pending timeouts; the cleanup cleared neither the
timeout nor the canvas ref, so both fire into the remounted canvas and
the scene receives the initial content twice. -/
theorem C5_theorem :
    runLife true editorLifeStart
        [LifeEvent.effectRun, LifeEvent.cleanup, LifeEvent.effectRun,
         LifeEvent.timeoutFire, LifeEvent.timeoutFire] =
      some { mounted := true, initGuard := true, canvasCreated := true, popCount := 2,
             pendingInits := 0 } := by
  decide

/-! ## Single logo layout (C4) -/

/-- `maxLogoWidth` of the single-logo branch (source lines 257-260):
base 200 times `logoSizeMultiplier || 1`. -/
def singleLogoMaxWidth (d : InitialContent) : ℚ :=
  200 * jsOrQ d.logoSizeMultiplier 1

/-- The single logo's uniform scale for a loaded image of natural size
`w` by `h` (source lines 261-264). -/
def singleLogoScale (d : InitialContent) (w h : ℚ) : ℚ :=
  min (singleLogoMaxWidth d / jsNZ w) (singleLogoMaxWidth d / jsNZ h)

/-- `(img.height || 0) * scale` (source line 279). -/
def singleLogoScaledHeight (d : InitialContent) (w h : ℚ) : ℚ :=
  h * singleLogoScale d w h

/-- The single logo's resolved `top` (source lines 269-281): explicit
`logoTop` wins; otherwise, with a non-empty texts list, 30 px above the
first text's `(top || 360)` minus the scaled height; otherwise 100. -/
def singleLogoTop (d : InitialContent) (w h : ℚ) : ℚ :=
  match d.logoTop with
  | some lt => lt
  | none =>
    match d.texts with
    | [] => 100
    | t :: _ => jsOrQ t.top (THUMBNAIL_HEIGHT / 2) - singleLogoScaledHeight d w h - 30

/-- The single logo's `left` (source line 284). -/
def singleLogoLeft : ℚ := THUMBNAIL_WIDTH / 2 - 20

/-- The amended C4's "first text top": the supplied top when present and
non-zero, else 360 (the code reads it with JS `||`). -/
def amendedFirstTextTop (t : TextConfig) : ℚ :=
  match t.top with
  | some v => if v = 0 then 360 else v
  | none => 360

/-- C4 (amended): with no explicit `logoTop` and a non-empty texts list,
the single logo's top equals the first text entry's top — where a missing
or zero supplied top reads as 360, because the code defaults it with JS
`||` — minus the logo's scaled height minus the 30 px gap. -/
theorem C4_theorem (d : InitialContent) (w h : ℚ) (t : TextConfig) (rest : List TextConfig)
    (hlt : d.logoTop = none) (hts : d.texts = t :: rest) :
    singleLogoTop d w h = amendedFirstTextTop t - singleLogoScaledHeight d w h - 30 := by
  unfold singleLogoTop
  rw [hlt, hts]
  show jsOrQ t.top (THUMBNAIL_HEIGHT / 2) - singleLogoScaledHeight d w h - 30 =
    amendedFirstTextTop t - singleLogoScaledHeight d w h - 30
  have : jsOrQ t.top (THUMBNAIL_HEIGHT / 2) = amendedFirstTextTop t := by
    unfold jsOrQ amendedFirstTextTop THUMBNAIL_HEIGHT
    cases t.top <;> norm_num
  rw [this]

/-- First text entry of the C4 witness descriptor. -/
def sampleText440 : TextConfig := { content := "T", top := some 440 }

/-- The C4 witness descriptor: first text at top 440, a single logo, no
multiplier. -/
def sampleSingleLogoContent : InitialContent :=
  { texts := [sampleText440], logoUrl := some "/barako.png" }

/-- C4 witness: the concrete descriptor above with a square 200x200 logo
gets its logo at 440 - 200 - 30 = 210. -/
theorem C4_witness :
    sampleSingleLogoContent.logoTop = none ∧
    singleLogoTop sampleSingleLogoContent 200 200 = 210 := by
  refine ⟨rfl, ?_⟩
  rw [C4_theorem sampleSingleLogoContent 200 200 sampleText440 [] rfl rfl]
  norm_num [amendedFirstTextTop, sampleText440, singleLogoScaledHeight, singleLogoScale,
    singleLogoMaxWidth, sampleSingleLogoContent, jsOrQ, jsNZ]

/-- C4 counterexample: a first text entry that supplies `top: 0`.  The
claim predicts logo top `0 - scaledHeight - 30 = -230` for a 200x200
logo, but the code's `||` default reads the zero top as 360 and yields
130. -/
theorem C4_counterexample :
    ({ texts := [{ content := "T", top := some 0 }],
       logoUrl := some "/barako.png" } : InitialContent).texts.map TextConfig.top =
      [some 0] ∧
    singleLogoTop
        { texts := [{ content := "T", top := some 0 }], logoUrl := some "/barako.png" }
        200 200 = 130 ∧
    ¬ (singleLogoTop
        { texts := [{ content := "T", top := some 0 }], logoUrl := some "/barako.png" }
        200 200 =
       0 - singleLogoScaledHeight
        { texts := [{ content := "T", top := some 0 }], logoUrl := some "/barako.png" }
        200 200 - 30) := by
  refine ⟨rfl, ?_, ?_⟩ <;>
    norm_num [singleLogoTop, singleLogoScaledHeight, singleLogoScale, singleLogoMaxWidth,
      jsOrQ, jsNZ, THUMBNAIL_HEIGHT]

/-! ## Multi-logo layout (C2) -/

/-- A successfully loaded logo image: its URL and natural size. -/
structure LoadedLogo where
  url : String
  w : ℚ
  h : ℚ
deriving DecidableEq

/-- `maxLogoWidth` for one logo of the multi-logo branch (source lines
188-196): base 150 times `logoSizeMultiplier || 1`, with the APA logo 25%
bigger and the Barako logo 5% smaller, keyed by filename substring. -/
def multiLogoMaxWidth (d : InitialContent) (url : String) : ℚ :=
  let m := jsOrQ d.logoSizeMultiplier 1
  if jsIncludes url "APA.png" then 150 * (5 / 4) * m
  else if jsIncludes url "barako.png" then 150 * (19 / 20) * m
  else 150 * m

/-- `(img.width || 0) * scale` for one logo (source lines 199-205). -/
def multiLogoScaledWidth (d : InitialContent) (lg : LoadedLogo) : ℚ :=
  lg.w * min (multiLogoMaxWidth d lg.url / jsNZ lg.w) (multiLogoMaxWidth d lg.url / jsNZ lg.h)

/-- The scaled widths of all loaded logos, in index order (the code
stores each into `logoImages[index]`, so completion order is irrelevant
once all have loaded). -/
def multiLogoWidths (d : InitialContent) (logos : List LoadedLogo) : List ℚ :=
  logos.map (multiLogoScaledWidth d)

/-- `totalWidth` (source lines 223-225): sum of the scaled widths plus
30 px spacing between consecutive logos. -/
def multiLogoTotalWidth (d : InitialContent) (logos : List LoadedLogo) : ℚ :=
  (multiLogoWidths d logos).sum + ((logos.length : ℚ) - 1) * 30

/-- The initial `currentX` (source line 226): `(1280 - totalWidth) / 2 - 20`. -/
def multiLogoStartX (d : InitialContent) (logos : List LoadedLogo) : ℚ :=
  (THUMBNAIL_WIDTH - multiLogoTotalWidth d logos) / 2 - 20

/-- The layout loop (source lines 228-236): each logo is centered at
`currentX + width / 2` and `currentX` then advances by `width + 30`. -/
def layoutCentersFrom (x : ℚ) : List ℚ → List ℚ
  | [] => []
  | w :: ws => (x + w / 2) :: layoutCentersFrom (x + w + 30) ws

/-- The laid-out horizontal centers of the logos. -/
def multiLogoCenters (d : InitialContent) (logos : List LoadedLogo) : List ℚ :=
  layoutCentersFrom (multiLogoStartX d logos) (multiLogoWidths d logos)

/-- Leftmost edge of the laid-out group (first center minus half the
first width; each logo has `originX: "center"`). -/
def multiLogoGroupLeft (d : InitialContent) (logos : List LoadedLogo) : ℚ :=
  (multiLogoCenters d logos).headD 0 - (multiLogoWidths d logos).headD 0 / 2

/-- Rightmost edge of the laid-out group (last center plus half the last
width). -/
def multiLogoGroupRight (d : InitialContent) (logos : List LoadedLogo) : ℚ :=
  ((multiLogoCenters d logos).getLast?.getD 0) + ((multiLogoWidths d logos).getLast?.getD 0) / 2

lemma layoutCentersFrom_last (ws : List ℚ) (x w : ℚ) :
    ((layoutCentersFrom x (w :: ws)).getLast?.getD 0) + ((w :: ws).getLast?.getD 0) / 2 =
      x + (w :: ws).sum + (ws.length : ℚ) * 30 := by
  induction ws generalizing x w with
  | nil =>
    simp [layoutCentersFrom]
    ring
  | cons w2 ws2 ih =>
    rw [show layoutCentersFrom x (w :: w2 :: ws2) =
        (x + w / 2) :: layoutCentersFrom (x + w + 30) (w2 :: ws2) from rfl]
    rw [show layoutCentersFrom (x + w + 30) (w2 :: ws2) =
        (x + w + 30 + w2 / 2) :: layoutCentersFrom (x + w + 30 + w2 + 30) ws2 from rfl]
    rw [List.getLast?_cons_cons, List.getLast?_cons_cons]
    have h2 := ih (x + w + 30) w2
    rw [show layoutCentersFrom (x + w + 30) (w2 :: ws2) =
        (x + w + 30 + w2 / 2) :: layoutCentersFrom (x + w + 30 + w2 + 30) ws2 from rfl] at h2
    rw [h2]
    simp [List.sum_cons]
    ring

lemma multiLogoGroupLeft_cons (d : InitialContent) (lg : LoadedLogo) (logos : List LoadedLogo) :
    multiLogoGroupLeft d (lg :: logos) = multiLogoStartX d (lg :: logos) := by
  unfold multiLogoGroupLeft multiLogoCenters
  rw [show multiLogoWidths d (lg :: logos) =
      multiLogoScaledWidth d lg :: multiLogoWidths d logos from rfl]
  rw [show layoutCentersFrom (multiLogoStartX d (lg :: logos))
      (multiLogoScaledWidth d lg :: multiLogoWidths d logos) =
      (multiLogoStartX d (lg :: logos) + multiLogoScaledWidth d lg / 2) ::
        layoutCentersFrom (multiLogoStartX d (lg :: logos) + multiLogoScaledWidth d lg + 30)
          (multiLogoWidths d logos) from rfl]
  simp

lemma multiLogoGroupRight_cons (d : InitialContent) (lg : LoadedLogo) (logos : List LoadedLogo) :
    multiLogoGroupRight d (lg :: logos) =
      multiLogoStartX d (lg :: logos) + multiLogoTotalWidth d (lg :: logos) := by
  unfold multiLogoGroupRight multiLogoCenters multiLogoTotalWidth
  rw [show multiLogoWidths d (lg :: logos) =
      multiLogoScaledWidth d lg :: multiLogoWidths d logos from rfl]
  rw [layoutCentersFrom_last]
  simp [multiLogoWidths]
  ring

/-- C2 (amended): when all k logos of a multi-logo descriptor load, the
laid-out group's extent (rightmost edge minus leftmost edge) equals the
sum of the individual scaled widths plus 30 x (k - 1); but the group is
centered 20 px left of the canvas centerline, with leftmost edge at
`(1280 - totalWidth) / 2 - 20` and rightmost at
`(1280 + totalWidth) / 2 - 20`. -/
theorem C2_theorem (d : InitialContent) (lg : LoadedLogo) (logos : List LoadedLogo) :
    multiLogoGroupRight d (lg :: logos) - multiLogoGroupLeft d (lg :: logos) =
      (multiLogoWidths d (lg :: logos)).sum + (((lg :: logos).length : ℚ) - 1) * 30 ∧
    multiLogoGroupLeft d (lg :: logos) =
      (1280 - multiLogoTotalWidth d (lg :: logos)) / 2 - 20 ∧
    multiLogoGroupRight d (lg :: logos) =
      (1280 + multiLogoTotalWidth d (lg :: logos)) / 2 - 20 := by
  have hl := multiLogoGroupLeft_cons d lg logos
  have hr := multiLogoGroupRight_cons d lg logos
  have hs : multiLogoStartX d (lg :: logos) =
      (1280 - multiLogoTotalWidth d (lg :: logos)) / 2 - 20 := by
    unfold multiLogoStartX THUMBNAIL_WIDTH
    ring
  refine ⟨?_, ?_, ?_⟩
  · rw [hl, hr, multiLogoTotalWidth]
    ring
  · rw [hl, hs]
  · rw [hr, hs]
    ring

/-- A concrete single-entry logo list for the C2 counterexample: a
150x150 logo with no special-case filename and no multiplier scales by
1, so the total width is 150. -/
def plainLogo150 : LoadedLogo := { url := "/logo.png", w := 150, h := 150 }

/-- C2 counterexample: with the 150-wide logo above the claim puts the
leftmost edge at (1280 - 150) / 2 = 565, but the code's 20 px left shift
puts it at 545. -/
theorem C2_counterexample :
    multiLogoGroupLeft {} [plainLogo150] = 545 ∧
    multiLogoGroupLeft {} [plainLogo150] ≠
      (1280 - multiLogoTotalWidth {} [plainLogo150]) / 2 := by
  have h1 : multiLogoTotalWidth {} [plainLogo150] = 150 := by
    have ha : jsIncludes "/logo.png" "APA.png" = false := by decide
    have hb : jsIncludes "/logo.png" "barako.png" = false := by decide
    simp [multiLogoTotalWidth, multiLogoWidths, multiLogoScaledWidth, multiLogoMaxWidth,
      plainLogo150, jsOrQ, jsNZ, ha, hb]
  have h2 : multiLogoGroupLeft {} [plainLogo150] = 545 := by
    rw [multiLogoGroupLeft_cons]
    rw [multiLogoStartX, h1, THUMBNAIL_WIDTH]
    norm_num
  refine ⟨h2, ?_⟩
  rw [h2, h1]
  norm_num

/-! ## Fixed centerline x-coordinates (C9) and the nine ball's position -/

/-- The YouTube logo's `left` (source line 335). -/
def youtubeLogoLeft : ℚ := THUMBNAIL_WIDTH / 2 - 20

/-- The nine ball's (and its numeral's) `left` (source lines 399, 410). -/
def nineBallLeft : ℚ := THUMBNAIL_WIDTH / 2 - 20

/-- `ballRadius` (source lines 376-377): `(nineBallSize || 250) / 2`. -/
def nineBallRadius (d : InitialContent) : ℚ := jsOrQ d.nineBallSize 250 / 2

/-- `ballTop` (source lines 380-394): canvas mid-height unless `logoTop`
is configured, in which case `logoTop` plus the estimated logo height
`200 * (logoSizeMultiplier || 1)` plus paddings 5.25, 15 and 10 plus the
ball radius. -/
def nineBallTop (d : InitialContent) : ℚ :=
  match d.logoTop with
  | none => THUMBNAIL_HEIGHT / 2
  | some lt => lt + 200 * jsOrQ d.logoSizeMultiplier 1 + 21 / 4 + nineBallRadius d + 15 + 10

/-- C9: every descriptor-driven centerline element — a default-positioned
text, the single logo, the YouTube logo, the nine ball and its numeral,
and the multi-logo group's center — sits at x = 1280 / 2 - 20 = 620,
which is 20 px left of the geometric centerline 640. -/
theorem C9_theorem (d : InitialContent) (tc : TextConfig) (lg : LoadedLogo)
    (logos : List LoadedLogo) (hleft : tc.left = none) (hox : tc.originX = none) :
    ((mkInitialTextbox tc).left = 620 ∧ (mkInitialTextbox tc).originX = "center") ∧
    singleLogoLeft = 620 ∧
    youtubeLogoLeft = 620 ∧
    nineBallLeft = 620 ∧
    multiLogoGroupLeft d (lg :: logos) + multiLogoTotalWidth d (lg :: logos) / 2 = 620 ∧
    THUMBNAIL_WIDTH / 2 - 20 = 620 ∧
    THUMBNAIL_WIDTH / 2 = 640 := by
  refine ⟨⟨?_, ?_⟩, ?_, ?_, ?_, ?_, ?_, ?_⟩
  · show jsCoalesceQ tc.left (THUMBNAIL_WIDTH / 2 - 20) = 620
    rw [hleft]
    norm_num [jsCoalesceQ, THUMBNAIL_WIDTH]
  · show jsOrS tc.originX "center" = "center"
    rw [hox]
    rfl
  · norm_num [singleLogoLeft, THUMBNAIL_WIDTH]
  · norm_num [youtubeLogoLeft, THUMBNAIL_WIDTH]
  · norm_num [nineBallLeft, THUMBNAIL_WIDTH]
  · rw [multiLogoGroupLeft_cons, multiLogoStartX, THUMBNAIL_WIDTH]
    ring
  · norm_num [THUMBNAIL_WIDTH]
  · norm_num [THUMBNAIL_WIDTH]

/-- C9 witness: the centerline facts at a concrete default-positioned
text entry and a concrete one-logo list. -/
theorem C9_witness :
    (mkInitialTextbox { content := "W" }).left = 620 ∧
    multiLogoGroupLeft {} [plainLogo150] + multiLogoTotalWidth {} [plainLogo150] / 2 = 620 :=
  ⟨(C9_theorem {} { content := "W" } plainLogo150 [] rfl rfl).1.1,
   (C9_theorem {} { content := "W" } plainLogo150 [] rfl rfl).2.2.2.2.1⟩

/-! ## Asynchronous load completions and the background's z-order (C3) -/

/-- State of one initialization pass: the canvas object list and the
`backgroundImageRef` closure variable, set once the background image has
loaded. -/
structure InitState where
  objs : List FabObj
  bgRef : Option FabObj
deriving DecidableEq

/-- The `objects.forEach(... bringObjectToFront ...)` loop of
`createNineBall` (source lines 427-432): iterate over a snapshot,
raising each textbox / i-text object. -/
def raiseTexts (snapshot : List FabObj) (l : List FabObj) : List FabObj :=
  snapshot.foldl (fun acc o => if isTextType o then bringToFront o acc else acc) l

/-- The white circle of the nine ball (source lines 397-406). -/
def nineBallCircle (d : InitialContent) : FabObj :=
  { ty := "circle", tag := "nineBallCircle", left := nineBallLeft, top := nineBallTop d }

/-- The gold "9" numeral, a fabric `Text` (type tag `"text"`, so the
textbox-raising loop does not move it; source lines 409-419). -/
def nineBallNumeral (d : InitialContent) : FabObj :=
  { ty := "text", tag := "nineBallNumeral", left := nineBallLeft, top := nineBallTop d }

/-- `sendObjectToBack(backgroundImageRef)` guarded by the null check the
asynchronous handlers perform. -/
def fixBg (bgRef : Option FabObj) (l : List FabObj) : List FabObj :=
  match bgRef with
  | some bg => sendToBack bg l
  | none => l

/-- `createNineBall` (source lines 373-438): add the circle and the
numeral, bring every textbox/i-text to the front, then send the
background (if loaded) to the back. -/
def createNineBall (d : InitialContent) (bgRef : Option FabObj) (l : List FabObj) :
    List FabObj :=
  fixBg bgRef (raiseTexts (addObj (nineBallNumeral d) (addObj (nineBallCircle d) l))
    (addObj (nineBallNumeral d) (addObj (nineBallCircle d) l)))

/-- The asynchronous completions of one initialization pass, at the
granularity of their canvas mutations: the background load (add, then
send itself to back), a non-final multi-logo load (add only), a final
multi-logo / single-logo / arrowless YouTube-logo load (add, then send
the background to back), a YouTube-logo load with arrow, and the
nine-ball step. -/
inductive LoadEvent where
  | bgLoad (img : FabObj)
  | logoAdd (img : FabObj)
  | logoAddFixBg (img : FabObj)
  | youtubeArrowAddFixBg (img arrow : FabObj)
  | nineBallDone (d : InitialContent)
deriving DecidableEq

/-- The canvas mutation each completion handler performs. -/
def stepLoad (st : InitState) : LoadEvent → InitState
  | .bgLoad img => { objs := sendToBack img (addObj img st.objs), bgRef := some img }
  | .logoAdd img => { st with objs := addObj img st.objs }
  | .logoAddFixBg img => { st with objs := fixBg st.bgRef (addObj img st.objs) }
  | .youtubeArrowAddFixBg img arrow =>
    { st with objs := fixBg st.bgRef (addObj arrow (addObj img st.objs)) }
  | .nineBallDone d => { st with objs := createNineBall d st.bgRef st.objs }

/-- Run an arbitrary interleaving of load completions. -/
def runLoads (st : InitState) : List LoadEvent → InitState
  | [] => st
  | ev :: rest => runLoads (stepLoad st ev) rest

/-- The invariant C3 rests on: once the background has loaded, the
`backgroundImageRef` points at it and it is the back-most object. -/
def BgGood (bg : FabObj) (st : InitState) : Prop :=
  st.bgRef = some bg ∧ st.objs.head? = some bg

lemma head?_mem {l : List FabObj} {bg : FabObj} (h : l.head? = some bg) : bg ∈ l := by
  cases l with
  | nil => simp at h
  | cons a t =>
    simp only [List.head?_cons, Option.some_inj] at h
    rw [← h]
    exact List.mem_cons_self a t

lemma head?_addObj (o : FabObj) {l : List FabObj} {bg : FabObj} (h : l.head? = some bg) :
    (addObj o l).head? = some bg := by
  cases l with
  | nil => simp at h
  | cons a t => simpa [addObj] using h

lemma head?_sendToBack_self (bg : FabObj) (l : List FabObj) (h : bg ∈ l) :
    (sendToBack bg l).head? = some bg := by
  unfold sendToBack
  rw [if_pos h]
  rfl

lemma head?_bringToFront {o bg : FabObj} (l : List FabObj) (hne : o ≠ bg)
    (h : l.head? = some bg) : (bringToFront o l).head? = some bg := by
  unfold bringToFront
  split
  · cases l with
    | nil => simp at h
    | cons a t =>
      simp only [List.head?_cons, Option.some_inj] at h
      subst h
      rw [List.erase_cons_tail (by simp [Ne.symm hne])]
      simp
  · exact h

lemma head?_raiseTexts (s : List FabObj) {bg : FabObj} (hbg : isTextType bg = false) :
    ∀ {l : List FabObj}, l.head? = some bg → (raiseTexts s l).head? = some bg := by
  induction s with
  | nil => intro l h; exact h
  | cons o s ih =>
    intro l h
    show (raiseTexts s (if isTextType o then bringToFront o l else l)).head? = some bg
    cases ho : isTextType o with
    | false => rw [if_neg (by simp [ho])]; exact ih h
    | true =>
      rw [if_pos (by simp [ho])]
      refine ih (head?_bringToFront l ?_ h)
      intro he
      rw [he, hbg] at ho
      cases ho

lemma fixBg_some_head (bg : FabObj) (l : List FabObj) (h : bg ∈ l) :
    (fixBg (some bg) l).head? = some bg := head?_sendToBack_self bg l h

lemma stepLoad_preserves_BgGood {bg : FabObj} {st : InitState} {ev : LoadEvent}
    (hty : isTextType bg = false)
    (hev : ∀ i, ev = LoadEvent.bgLoad i → i = bg)
    (h : BgGood bg st) : BgGood bg (stepLoad st ev) := by
  obtain ⟨h1, h2⟩ := h
  cases ev with
  | bgLoad i =>
    obtain rfl := hev i rfl
    exact ⟨rfl, head?_sendToBack_self i _ (by simp [addObj])⟩
  | logoAdd img => exact ⟨h1, head?_addObj img h2⟩
  | logoAddFixBg img =>
    refine ⟨h1, ?_⟩
    show (fixBg st.bgRef (addObj img st.objs)).head? = some bg
    rw [h1]
    exact fixBg_some_head bg _ (head?_mem (head?_addObj img h2))
  | youtubeArrowAddFixBg img arrow =>
    refine ⟨h1, ?_⟩
    show (fixBg st.bgRef (addObj arrow (addObj img st.objs))).head? = some bg
    rw [h1]
    exact fixBg_some_head bg _ (head?_mem (head?_addObj arrow (head?_addObj img h2)))
  | nineBallDone d =>
    refine ⟨h1, ?_⟩
    show (createNineBall d st.bgRef st.objs).head? = some bg
    rw [h1]
    unfold createNineBall
    exact fixBg_some_head bg _
      (head?_mem (head?_raiseTexts _ hty (head?_addObj _ (head?_addObj _ h2))))

lemma stepLoad_bgRef_none {st : InitState} {ev : LoadEvent}
    (hn : st.bgRef = none) (hev : ∀ i, ev ≠ LoadEvent.bgLoad i) :
    (stepLoad st ev).bgRef = none := by
  cases ev with
  | bgLoad i => exact absurd rfl (hev i)
  | logoAdd img => exact hn
  | logoAddFixBg img => exact hn
  | youtubeArrowAddFixBg img arrow => exact hn
  | nineBallDone d => exact hn

lemma runLoads_BgGood (bg : FabObj) (hty : isTextType bg = false) :
    ∀ (evs : List LoadEvent) (st : InitState),
      (∀ i, LoadEvent.bgLoad i ∈ evs → i = bg) →
      (BgGood bg st → BgGood bg (runLoads st evs)) ∧
      (st.bgRef = none → LoadEvent.bgLoad bg ∈ evs → BgGood bg (runLoads st evs)) := by
  intro evs
  induction evs with
  | nil =>
    intro st _
    exact ⟨id, fun _ hmem => absurd hmem (by simp)⟩
  | cons ev rest ih =>
    intro st huniq
    have huniq2 : ∀ i, LoadEvent.bgLoad i ∈ rest → i = bg := fun i hi =>
      huniq i (List.mem_cons_of_mem _ hi)
    have hev : ∀ i, ev = LoadEvent.bgLoad i → i = bg := fun i he =>
      huniq i (he ▸ List.mem_cons_self _ _)
    constructor
    · intro hg
      exact (ih (stepLoad st ev) huniq2).1 (stepLoad_preserves_BgGood hty hev hg)
    · intro hnone hmem
      by_cases hb : ∃ i, ev = LoadEvent.bgLoad i
      · obtain ⟨i, rfl⟩ := hb
        obtain rfl := hev i rfl
        refine (ih _ huniq2).1 ?_
        exact ⟨rfl, head?_sendToBack_self i _ (by simp [addObj])⟩
      · have hnone2 : (stepLoad st ev).bgRef = none :=
          stepLoad_bgRef_none hnone (fun i he => hb ⟨i, he⟩)
        have hmem2 : LoadEvent.bgLoad bg ∈ rest := by
          rcases List.mem_cons.mp hmem with h | h
          · exact absurd ⟨bg, h.symm⟩ hb
          · exact h
        exact (ih _ huniq2).2 hnone2 hmem2

/-- C3: for every interleaving of the asynchronous load completions that
contains the (unique) successful background load, once all completions
have run the background image sits at index 0 of the object list — the
back-most z-index position. -/
theorem C3_theorem (st : InitState) (evs : List LoadEvent) (bg : FabObj)
    (hnone : st.bgRef = none) (hty : bg.ty = "image")
    (huniq : ∀ i, LoadEvent.bgLoad i ∈ evs → i = bg)
    (hmem : LoadEvent.bgLoad bg ∈ evs) :
    (runLoads st evs).objs.head? = some bg := by
  have htt : isTextType bg = false := by
    unfold isTextType
    rw [hty]
    rfl
  exact ((runLoads_BgGood bg htt evs st huniq).2 hnone hmem).2

/-- The background image object of the C3 witness. -/
def bgImgObj : FabObj := { ty := "image", tag := "/dark-purple-pattern.svg" }

/-- A textbox present before the loads complete (C3 witness). -/
def tbObj1 : FabObj := { ty := "textbox", tag := "PBS Cup @ ASA" }

/-- First logo image of the C3 witness. -/
def logoObj1 : FabObj := { ty := "image", tag := "/PBS.png" }

/-- Second logo image of the C3 witness. -/
def logoObj2 : FabObj := { ty := "image", tag := "/Asa.png" }

/-- C3 witness: a concrete interleaving in which a logo lands before the
background loads and another after; the background still ends up
back-most. -/
theorem C3_witness :
    (runLoads { objs := [tbObj1], bgRef := none }
        [LoadEvent.logoAdd logoObj1, LoadEvent.bgLoad bgImgObj,
         LoadEvent.logoAddFixBg logoObj2]).objs.head? = some bgImgObj := by
  refine C3_theorem { objs := [tbObj1], bgRef := none } _ bgImgObj rfl rfl ?_ (by simp)
  intro i hi
  simp only [List.mem_cons, List.not_mem_nil, or_false] at hi
  rcases hi with h | h | h
  · cases h
  · injection h
  · cases h

/-! ## Nine ball stacking (C7): the raising loop is a stable partition -/

lemma erase_append_single (A : List FabObj) (t u : FabObj) (hne : u ≠ t) :
    (A ++ [t]).erase u = A.erase u ++ [t] := by
  by_cases hu : u ∈ A
  · exact List.erase_append_left _ hu
  · rw [List.erase_append_right _ hu, List.erase_of_not_mem (by simp [hne]),
      List.erase_of_not_mem hu]

lemma diff_append_single (ts : List FabObj) :
    ∀ (A : List FabObj) (t : FabObj), t ∉ ts → (A ++ [t]).diff ts = A.diff ts ++ [t] := by
  induction ts with
  | nil => intro A t _; simp [List.diff_nil]
  | cons u ts ih =>
    intro A t ht
    have hut : u ≠ t := fun he => ht (he ▸ List.mem_cons_self u ts)
    rw [List.diff_cons, List.diff_cons, erase_append_single A t u hut,
      ih _ t (fun hh => ht (List.mem_cons_of_mem _ hh))]

lemma foldl_bringToFront_eq (ts : List FabObj) :
    ∀ (l : List FabObj), l.Nodup → ts.Nodup → ts ⊆ l →
      ts.foldl (fun acc o => bringToFront o acc) l = l.diff ts ++ ts := by
  induction ts with
  | nil => intro l _ _ _; simp [List.diff_nil]
  | cons t ts ih =>
    intro l hl hts hsub
    have htmem : t ∈ l := hsub (List.mem_cons_self t ts)
    have htnotts : t ∉ ts := (List.nodup_cons.mp hts).1
    rw [List.foldl_cons]
    have hbf : bringToFront t l = l.erase t ++ [t] := by
      unfold bringToFront
      rw [if_pos htmem]
    rw [hbf]
    have hl2 : (l.erase t ++ [t]).Nodup := by
      rw [List.nodup_append]
      refine ⟨hl.erase t, List.nodup_singleton t, ?_⟩
      intro u hu hu2
      simp only [List.mem_singleton] at hu2
      subst hu2
      exact absurd ((hl.mem_erase_iff).mp hu).1 (by simp)
    have hsub2 : ts ⊆ l.erase t ++ [t] := by
      intro u hu
      have hul : u ∈ l := hsub (List.mem_cons_of_mem _ hu)
      have hut : u ≠ t := fun he => (List.nodup_cons.mp hts).1 (he ▸ hu)
      exact List.mem_append_left _ ((List.mem_erase_of_ne hut).mpr hul)
    rw [ih (l.erase t ++ [t]) hl2 (hts.of_cons) hsub2]
    rw [diff_append_single ts (l.erase t) t htnotts, List.diff_cons]
    simp

lemma raiseTexts_eq_filter_fold (s : List FabObj) :
    ∀ l, raiseTexts s l = (s.filter isTextType).foldl (fun acc o => bringToFront o acc) l := by
  induction s with
  | nil => intro l; rfl
  | cons o s ih =>
    intro l
    show raiseTexts s (if isTextType o then bringToFront o l else l) =
      ((o :: s).filter isTextType).foldl (fun acc o => bringToFront o acc) l
    cases ho : isTextType o with
    | true =>
      rw [if_pos rfl, List.filter_cons_of_pos ho, List.foldl_cons]
      exact ih (bringToFront o l)
    | false =>
      rw [if_neg (by simp), List.filter_cons_of_neg (by simp [ho])]
      exact ih l

/-- The textbox-raising loop over a snapshot of a duplicate-free list is
a stable partition: non-text objects (in order) first, text objects (in
order) last. -/
lemma raiseTexts_self (l : List FabObj) (hl : l.Nodup) :
    raiseTexts l l = l.filter (fun o => !isTextType o) ++ l.filter isTextType := by
  rw [raiseTexts_eq_filter_fold]
  rw [foldl_bringToFront_eq (l.filter isTextType) l hl (hl.filter _)
    (List.filter_sublist l).subset]
  congr 1
  rw [hl.diff_eq_filter]
  refine List.filter_congr ?_
  intro a ha
  by_cases h : isTextType a = true
  · simp [List.mem_filter, ha, h]
  · simp [List.mem_filter, ha, h]

/-- C7 (amended): with `showNineBall` set and a configured `logoTop`,
after the nine-ball step the circle and the numeral sit behind every
textbox/i-text object and in front of the (loaded) background image, and
the ball's vertical center is `logoTop` plus the estimated logo height
`200 x (logoSizeMultiplier, a supplied 0 or a missing value counting as
1)` plus the paddings 5.25, 15 and 10 plus the ball radius. -/
theorem C7_theorem (d : InitialContent) (l : List FabObj) (bgRef : Option FabObj) (lt : ℚ)
    (hnodup : (l ++ [nineBallCircle d, nineBallNumeral d]).Nodup)
    (hbg : ∀ bg, bgRef = some bg → bg ∈ l ∧ bg.ty = "image")
    (hlt : d.logoTop = some lt) :
    nineBallTop d = lt + 200 * specFalsyDefaultQ d.logoSizeMultiplier 1 + 21 / 4 +
      nineBallRadius d + 15 + 10 ∧
    (∃ front rear, createNineBall d bgRef l = front ++ rear ∧
      nineBallCircle d ∈ front ∧ nineBallNumeral d ∈ front ∧
      (∀ o ∈ front, isTextType o = false) ∧
      (∀ o ∈ createNineBall d bgRef l, isTextType o = true → o ∈ rear)) ∧
    (∀ bg, bgRef = some bg →
      (createNineBall d bgRef l).head? = some bg ∧
      nineBallCircle d ∈ (createNineBall d bgRef l).tail ∧
      nineBallNumeral d ∈ (createNineBall d bgRef l).tail) := by
  have htop : nineBallTop d = lt + 200 * specFalsyDefaultQ d.logoSizeMultiplier 1 + 21 / 4 +
      nineBallRadius d + 15 + 10 := by
    unfold nineBallTop
    rw [hlt]
    show lt + 200 * jsOrQ d.logoSizeMultiplier 1 + 21 / 4 + nineBallRadius d + 15 + 10 = _
    rw [jsOrQ_eq_specFalsy]
  have hl1 : addObj (nineBallNumeral d) (addObj (nineBallCircle d) l) =
      l ++ [nineBallCircle d, nineBallNumeral d] := by
    simp [addObj]
  have hcnb : createNineBall d bgRef l =
      fixBg bgRef (raiseTexts (l ++ [nineBallCircle d, nineBallNumeral d])
        (l ++ [nineBallCircle d, nineBallNumeral d])) := by
    unfold createNineBall
    rw [hl1]
  have hraise := raiseTexts_self (l ++ [nineBallCircle d, nineBallNumeral d]) hnodup
  have hcircle_ty : isTextType (nineBallCircle d) = false := rfl
  have hnumeral_ty : isTextType (nineBallNumeral d) = false := rfl
  have hcirc_mem : nineBallCircle d ∈ l ++ [nineBallCircle d, nineBallNumeral d] := by simp
  have hnum_mem : nineBallNumeral d ∈ l ++ [nineBallCircle d, nineBallNumeral d] := by simp
  have hcircN : nineBallCircle d ∈
      (l ++ [nineBallCircle d, nineBallNumeral d]).filter (fun o => !isTextType o) :=
    List.mem_filter.mpr ⟨hcirc_mem, by rw [hcircle_ty]; rfl⟩
  have hnumN : nineBallNumeral d ∈
      (l ++ [nineBallCircle d, nineBallNumeral d]).filter (fun o => !isTextType o) :=
    List.mem_filter.mpr ⟨hnum_mem, by rw [hnumeral_ty]; rfl⟩
  have hfrontN : ∀ o ∈ (l ++ [nineBallCircle d, nineBallNumeral d]).filter
      (fun o => !isTextType o), isTextType o = false := by
    intro o ho
    have := (List.mem_filter.mp ho).2
    simpa using this
  cases bgRef with
  | none =>
    have hfinal : createNineBall d none l =
        (l ++ [nineBallCircle d, nineBallNumeral d]).filter (fun o => !isTextType o) ++
          (l ++ [nineBallCircle d, nineBallNumeral d]).filter isTextType := by
      rw [hcnb]
      show raiseTexts _ _ = _
      exact hraise
    refine ⟨htop, ⟨_, _, hfinal, hcircN, hnumN, hfrontN, ?_⟩, ?_⟩
    · intro o ho hot
      rw [hfinal] at ho
      rcases List.mem_append.mp ho with h | h
      · rw [hfrontN o h] at hot
        cases hot
      · exact h
    · intro bg h
      cases h
  | some bg =>
    obtain ⟨hbgmem, hbgty⟩ := hbg bg rfl
    have hbg_ty : isTextType bg = false := by
      unfold isTextType
      rw [hbgty]
      rfl
    have hbgN : bg ∈ (l ++ [nineBallCircle d, nineBallNumeral d]).filter
        (fun o => !isTextType o) :=
      List.mem_filter.mpr ⟨List.mem_append_left _ hbgmem, by rw [hbg_ty]; rfl⟩
    have hcircne : nineBallCircle d ≠ bg := by
      intro he
      have h3 : "circle" = bg.ty := congrArg FabObj.ty he
      rw [hbgty] at h3
      exact absurd h3 (by decide)
    have hnumne : nineBallNumeral d ≠ bg := by
      intro he
      have h3 : "text" = bg.ty := congrArg FabObj.ty he
      rw [hbgty] at h3
      exact absurd h3 (by decide)
    have hfinal : createNineBall d (some bg) l =
        bg :: (((l ++ [nineBallCircle d, nineBallNumeral d]).filter
            (fun o => !isTextType o)).erase bg ++
          (l ++ [nineBallCircle d, nineBallNumeral d]).filter isTextType) := by
      rw [hcnb]
      show sendToBack bg _ = _
      rw [hraise]
      unfold sendToBack
      rw [if_pos (List.mem_append_left _ hbgN), List.erase_append_left _ hbgN]
    have hcircE : nineBallCircle d ∈ ((l ++ [nineBallCircle d, nineBallNumeral d]).filter
        (fun o => !isTextType o)).erase bg := (List.mem_erase_of_ne hcircne).mpr hcircN
    have hnumE : nineBallNumeral d ∈ ((l ++ [nineBallCircle d, nineBallNumeral d]).filter
        (fun o => !isTextType o)).erase bg := (List.mem_erase_of_ne hnumne).mpr hnumN
    refine ⟨htop, ⟨bg :: ((l ++ [nineBallCircle d, nineBallNumeral d]).filter
        (fun o => !isTextType o)).erase bg,
      (l ++ [nineBallCircle d, nineBallNumeral d]).filter isTextType, ?_, ?_, ?_, ?_, ?_⟩, ?_⟩
    · rw [hfinal]
      rfl
    · exact List.mem_cons_of_mem _ hcircE
    · exact List.mem_cons_of_mem _ hnumE
    · intro o ho
      rcases List.mem_cons.mp ho with h | h
      · rw [h]
        exact hbg_ty
      · exact hfrontN o (List.erase_subset _ _ h)
    · intro o ho hot
      rw [hfinal] at ho
      rcases List.mem_cons.mp ho with h | h
      · rw [h] at hot
        rw [hbg_ty] at hot
        cases hot
      · rcases List.mem_append.mp h with h2 | h2
        · rw [hfrontN o (List.erase_subset _ _ h2)] at hot
          cases hot
        · exact h2
    · intro bg2 h2
      rw [Option.some_inj] at h2
      subst h2
      rw [hfinal]
      exact ⟨rfl, List.mem_append_left _ hcircE, List.mem_append_left _ hnumE⟩

/-- C7 witness descriptor (modeled on the tab-7 template): nine ball
shown, logo top 50, multiplier 1.3, ball size 200. -/
def sampleNineBallContent : InitialContent :=
  { logoUrl := some "/fromOwen.png", logoTop := some 50,
    logoSizeMultiplier := some (13 / 10), showNineBall := true, nineBallSize := some 200 }

/-- A second textbox for the C7 witness canvas. -/
def tbObj2 : FabObj := { ty := "textbox", tag := "29th November 2025" }

/-- The C7 witness canvas before the nine-ball step: the loaded
background plus two textboxes. -/
def sampleNineBallCanvas : List FabObj := [bgImgObj, tbObj1, tbObj2]

/-- C7 witness: the stacking and position facts at the concrete
descriptor and canvas above. -/
theorem C7_witness :
    nineBallTop sampleNineBallContent =
      50 + 200 * specFalsyDefaultQ sampleNineBallContent.logoSizeMultiplier 1 + 21 / 4 +
        nineBallRadius sampleNineBallContent + 15 + 10 ∧
    (∃ front rear,
      createNineBall sampleNineBallContent (some bgImgObj) sampleNineBallCanvas =
        front ++ rear ∧
      nineBallCircle sampleNineBallContent ∈ front ∧
      nineBallNumeral sampleNineBallContent ∈ front ∧
      (∀ o ∈ front, isTextType o = false) ∧
      (∀ o ∈ createNineBall sampleNineBallContent (some bgImgObj) sampleNineBallCanvas,
        isTextType o = true → o ∈ rear)) ∧
    (∀ bg, (some bgImgObj : Option FabObj) = some bg →
      (createNineBall sampleNineBallContent (some bgImgObj) sampleNineBallCanvas).head? =
        some bg ∧
      nineBallCircle sampleNineBallContent ∈
        (createNineBall sampleNineBallContent (some bgImgObj) sampleNineBallCanvas).tail ∧
      nineBallNumeral sampleNineBallContent ∈
        (createNineBall sampleNineBallContent (some bgImgObj) sampleNineBallCanvas).tail) :=
  C7_theorem sampleNineBallContent sampleNineBallCanvas (some bgImgObj) 50
    (by decide)
    (by
      intro bg h
      rw [Option.some_inj] at h
      subst h
      exact ⟨by simp [sampleNineBallCanvas], rfl⟩)
    rfl

/-- The C7 counterexample descriptor: `logoSizeMultiplier` supplied as 0. -/
def nineBallZeroMultContent : InitialContent :=
  { showNineBall := true, logoTop := some 100, logoSizeMultiplier := some 0 }

/-- C7 counterexample: with `logoSizeMultiplier: 0` the claim's estimated
logo height `200 x logoSizeMultiplier` is 0, predicting ball center
255.25, but the code's `||` default uses multiplier 1 and yields 455.25
(= 1821/4). -/
theorem C7_counterexample :
    nineBallZeroMultContent.logoSizeMultiplier = some 0 ∧
    nineBallTop nineBallZeroMultContent = 1821 / 4 ∧
    nineBallTop nineBallZeroMultContent ≠
      100 + 200 * 0 + 21 / 4 + nineBallRadius nineBallZeroMultContent + 15 + 10 := by
  refine ⟨rfl, ?_, ?_⟩ <;>
    norm_num [nineBallTop, nineBallRadius, nineBallZeroMultContent, jsOrQ]
